import Mathlib

/-!
Verification of the dq-break-records Flask backend (`src/server/app.py`)
against its natural-language specification.

The development shallowly embeds the pure logic of the three main endpoints:

* `parse_dataset` (`GET /api/datasets/parse`): parameter clamping, the
  header resolution from `opt_owl.linkid`, the dynamic SQL projection
  builder, pagination arithmetic, and the per-request connection lifecycle
  around the `try/finally` block;
* `get_dashboard_health` (`GET /api/dashboard/health`): the no-data guard,
  the status-classification `CASE` expression of the base CTE, the
  all-or-nothing assembly of the four aggregate query results, and the
  connection lifecycle around its `finally` block;
* `get_datasets` (`GET /api/datasets`): its connection lifecycle, which has
  no `finally` block.

Database queries are modelled by explicit state (the rows the query would
return, or an `Except` for a query that may raise); string handling mirrors
PostgreSQL `string_to_array` and Python `str.strip` with executable
structural recursions.
-/

namespace DQBreakRecords

/-- Splits a character list at every occurrence of the two-character
delimiter `~|`, keeping empty tokens.  This is the executable model of
PostgreSQL `string_to_array(s, '~|')` (an external SQL builtin invoked by
`app.py` lines 121, 193 and 219), restricted to non-empty input strings
where PostgreSQL split semantics coincide with ordinary token splitting. -/
def splitTokensAux : List Char → List (List Char)
  | [] => [[]]
  | '~' :: '|' :: rest => [] :: splitTokensAux rest
  | c :: rest =>
    match splitTokensAux rest with
    | [] => [[c]]
    | t :: ts => (c :: t) :: ts

/-- Model of the SQL expression `string_to_array(linkid, '~|')` used by the
headers query of `parse_dataset` (app.py lines 192-197). -/
def stringToArray (s : String) : List String :=
  (splitTokensAux s.data).map List.asString

/-- Model of Python `str.strip()`: removes leading and trailing whitespace
characters. -/
def pyStrip (s : String) : String :=
  ((s.data.dropWhile Char.isWhitespace).reverse.dropWhile Char.isWhitespace).reverse.asString

/-- Model of the f-string `f"d.value[{i+1}] AS {col.strip()}"` built for the
token at 0-based enumeration index `i` (app.py line 210). -/
def columnExpression (i : Nat) (col : String) : String :=
  "d.value[" ++ toString (i + 1) ++ "] AS " ++ pyStrip col

/-- Model of the list comprehension building `column_expressions`
(app.py lines 209-213): enumerate the header tokens, skip tokens that are
blank after stripping, and emit one aliased array-extraction expression per
surviving token. -/
def columnExpressions (headers : List String) : List String :=
  headers.enum.filterMap (fun ic =>
    if pyStrip ic.2 = "" then none else some (columnExpression ic.1 ic.2))

/-- Model of the `columns` field of the `parse_dataset` response
(app.py line 277): `[h for h in headers if h.strip()]` applied to the tokens
of the stored header string. -/
def resolveColumns (linkid : String) : List String :=
  (stringToArray linkid).filter (fun h => ¬ pyStrip h = "")

/-- Modelled from the spec (refinement comparison only): the Header
Resolver as the spec's words describe it, namely splitting on the delimiter
and discarding the tokens that are equal to the empty string. -/
def resolveColumnsSpec (linkid : String) : List String :=
  (stringToArray linkid).filter (fun h => ¬ h = "")

/-- Model of the Python clamp `max(1, int(request.args.get('page', 1)))`
(app.py line 156). -/
def clampPage (requested : Int) : Int := max 1 requested

/-- Model of the Python clamp `max(1, min(1000, int(...)))` applied to the
requested page size (app.py line 157). -/
def clampPageSize (requested : Int) : Int := max 1 (min 1000 requested)

/-- Model of the Python clamp `max(1, int(request.args.get('days', 1)))`
(app.py line 158). -/
def clampDays (requested : Int) : Int := max 1 requested

/-- Model of `offset = (page - 1) * page_size` (app.py line 163). -/
def offsetOf (page pageSize : Int) : Int := (page - 1) * pageSize

/-- Model of `(total_count + page_size - 1) // page_size`
(app.py line 283).  Both operands are non-negative Python integers, so
natural-number truncated division coincides with Python floor division. -/
def totalPages (totalCount pageSize : Nat) : Nat :=
  (totalCount + pageSize - 1) / pageSize

/-- Model of the SQL `CASE` expression classifying a health fact
(app.py lines 407-411).  SQL three-valued logic makes `length(NULL) > 1`
not-true, so a `none` exception never satisfies the second branch.  The
branches are tried in order and a fact matching none of them gets SQL
`NULL`, modelled as `none`. -/
def exceptionLengthGtOne : Option String → Bool
  | none => false
  | some s => s.length > 1

/-- Model of the full `CASE WHEN ... END` status classification of the base
CTE `f` in `get_dashboard_health` (app.py lines 407-411). -/
def classifyStatus (score : Int) (exc : Option String) : Option String :=
  if score = 0 ∧ (exc = none ∨ exc = some "") then some "PASSING"
  else if exceptionLengthGtOne exc then some "EXCEPTION"
  else if 0 < score then some "BREAKING"
  else none

/-- Helper: filtering an enumeration from start index `n` is the same as
filtering over the positions `0, ..., length - 1` with the index shifted by
`n`. -/
theorem filterMap_enumFrom_eq (f : Nat × String → Option String) :
    ∀ (n : Nat) (hs : List String),
      List.filterMap f (List.enumFrom n hs) =
        List.filterMap (fun i => f (n + i, hs.getD i "")) (List.range hs.length)
  | _, [] => by simp
  | n, h :: t => by
    have ih := filterMap_enumFrom_eq f (n + 1) t
    simp only [List.enumFrom_cons, List.filterMap_cons, List.length_cons,
      List.range_succ_eq_map, List.filterMap_map]
    rw [ih]
    have harg : (fun i => f (n + 1 + i, t.getD i "")) =
        (fun i => f (n + i, (h :: t).getD i "")) ∘ Nat.succ := by
      funext i
      simp only [Function.comp_apply, List.getD_cons_succ]
      have : n + 1 + i = n + (i + 1) := by omega
      rw [this]
    rw [harg]
    simp

/-- C1: the Dynamic Projection Builder produces one SQL column expression
per non-blank header token; the expression generated for the token at
0-based list position `i` extracts array element `i + 1` and aliases it to
the whitespace-trimmed token at position `i`; blank tokens produce no
expression, and the surviving expressions keep the original index `i` of
their token. -/
theorem columnExpressions_per_token (hs : List String) :
    columnExpressions hs =
      List.filterMap (fun i =>
        if pyStrip (hs.getD i "") = "" then none
        else some ("d.value[" ++ toString (i + 1) ++ "] AS " ++ pyStrip (hs.getD i "")))
        (List.range hs.length)
    ∧ (columnExpressions hs).length = (hs.filter (fun c => ¬ pyStrip c = "")).length := by
  constructor
  · show List.filterMap _ (List.enumFrom 0 hs) = _
    rw [filterMap_enumFrom_eq]
    refine List.filterMap_congr (fun i _ => ?_)
    simp [columnExpression]
  · have key : ∀ (n : Nat) (t : List String),
        (List.filterMap (fun ic =>
          if pyStrip ic.2 = "" then none else some (columnExpression ic.1 ic.2))
          (List.enumFrom n t)).length = (t.filter (fun c => ¬ pyStrip c = "")).length := by
      intro n t
      induction t generalizing n with
      | nil => rfl
      | cons h rest ih =>
        simp only [List.enumFrom_cons, List.filterMap_cons, List.filter_cons]
        by_cases hb : pyStrip h = "" <;> simp [hb, ih]
    exact key 0 hs

/-- C2 counterexample: a whitespace-only token is non-empty, yet the code
drops it (the filter keeps `h` only when `h.strip()` is truthy), so the
resolver's output differs from "split and discard empty tokens" on the
header string `"A~| ~|B"`. -/
theorem resolveColumns_blank_token_cex :
    resolveColumns "A~| ~|B" = ["A", "B"]
    ∧ resolveColumnsSpec "A~| ~|B" = ["A", " ", "B"]
    ∧ ¬ resolveColumns "A~| ~|B" = resolveColumnsSpec "A~| ~|B" := by
  refine ⟨by decide, by decide, by decide⟩

/-- C2 amended: the Header Resolver returns the ordered sublist of tokens
of the stored header string that are non-blank (non-empty after whitespace
trimming); in particular on `"A~|B~|~|C"` it returns `["A", "B", "C"]` with
the empty middle token dropped and the relative order preserved. -/
theorem resolveColumns_filters_blanks :
    (∀ s : String,
        resolveColumns s = (stringToArray s).filter (fun h => ¬ pyStrip h = "")
        ∧ List.Sublist (resolveColumns s) (stringToArray s))
    ∧ resolveColumns "A~|B~|~|C" = ["A", "B", "C"] :=
  ⟨fun _ => ⟨rfl, List.filter_sublist _⟩, by decide⟩

/-- C3 counterexample: a fact with score greater than 0 whose exception
text has length exactly 1 does receive a classification: the third `CASE`
branch fires and labels it `BREAKING`, contradicting the claim that it
falls through unclassified. -/
theorem classifyStatus_one_char_breaking_cex :
    classifyStatus 1 (some "x") = some "BREAKING"
    ∧ ¬ classifyStatus 1 (some "x") = none := by
  refine ⟨by decide, by decide⟩

/-- C3 amended: the classification assigns `PASSING` exactly when the score
is zero and the exception is null or empty; otherwise `EXCEPTION` when the
exception length exceeds 1; otherwise `BREAKING` when the score is
positive; the unclassified gap consists of the facts matching none of the
three branches — e.g. a fact with score 0 and a one-character exception —
while a positive-score fact with a one-character exception is `BREAKING`. -/
theorem classifyStatus_characterization (score : Int) (exc : Option String) :
    (classifyStatus score exc = some "PASSING" ↔
      score = 0 ∧ (exc = none ∨ exc = some ""))
    ∧ (classifyStatus score exc = some "EXCEPTION" ↔
      ¬ (score = 0 ∧ (exc = none ∨ exc = some "")) ∧ exceptionLengthGtOne exc = true)
    ∧ (classifyStatus score exc = some "BREAKING" ↔
      ¬ (score = 0 ∧ (exc = none ∨ exc = some ""))
        ∧ exceptionLengthGtOne exc = false ∧ 0 < score)
    ∧ (classifyStatus score exc = none ↔
      ¬ (score = 0 ∧ (exc = none ∨ exc = some ""))
        ∧ exceptionLengthGtOne exc = false ∧ ¬ 0 < score)
    ∧ classifyStatus 0 (some "x") = none
    ∧ classifyStatus 1 (some "x") = some "BREAKING" := by
  refine ⟨?_, ?_, ?_, ?_, by decide, by decide⟩ <;>
    · unfold classifyStatus
      split_ifs with h1 h2 h3 <;> simp_all

/-- C4: for every totalCount and every pageSize at least 1, the value
`(totalCount + pageSize - 1) / pageSize` computed for the `totalPages`
pagination field equals the ceiling of the exact quotient
totalCount / pageSize. -/
theorem totalPages_eq_ceil (t p : Nat) (hp : 1 ≤ p) :
    (totalPages t p : Int) = ⌈(t : ℚ) / (p : ℚ)⌉ := by
  have hp0 : 0 < p := hp
  have hpQ : (0 : ℚ) < (p : ℚ) := by exact_mod_cast hp0
  have hq1 : totalPages t p * p ≤ t + p - 1 := Nat.div_mul_le_self (t + p - 1) p
  have hq2 : t + p - 1 < (totalPages t p + 1) * p :=
    (Nat.div_lt_iff_lt_mul hp0).mp (Nat.lt_succ_self _)
  have hq2' : t + p - 1 < totalPages t p * p + p := by
    rw [Nat.add_mul, one_mul] at hq2
    exact hq2
  have key : ∀ A : Nat, A ≤ t + p - 1 → t + p - 1 < A + p → t ≤ A ∧ A < t + p := by
    intro A hA1 hA2
    omega
  obtain ⟨ht1, ht2⟩ := key (totalPages t p * p) hq1 hq2'
  have ht1Q : (t : ℚ) ≤ (totalPages t p : ℚ) * p := by exact_mod_cast ht1
  have ht2Q : (totalPages t p : ℚ) * p < t + p := by exact_mod_cast ht2
  rw [eq_comm, Int.ceil_eq_iff]
  constructor
  · rw [lt_div_iff₀ hpQ]
    push_cast
    linarith
  · rw [div_le_iff₀ hpQ]
    push_cast
    linarith

/-- C4 witness: at totalCount 101 and pageSize 100 the hypothesis holds and
the formula matches the ceiling, giving 2 pages; totalCount 0 gives 0. -/
theorem totalPages_eq_ceil_witness :
    ((1 : Nat) ≤ 100 ∧ (totalPages 101 100 : Int) = ⌈(101 : ℚ) / (100 : ℚ)⌉)
    ∧ totalPages 101 100 = 2 ∧ totalPages 0 100 = 0 := by
  refine ⟨⟨by norm_num, ?_⟩, by decide, by decide⟩
  have h := totalPages_eq_ceil 101 100 (by norm_num)
  push_cast at h ⊢
  exact h

/-- C5: for every requested page size, the effective page size is
`max(1, min(1000, requested))`, always lies in the interval [1, 1000], and
a request of 5000 is clamped to 1000. -/
theorem clampPageSize_range :
    (∀ r : Int,
        1 ≤ clampPageSize r ∧ clampPageSize r ≤ 1000
        ∧ clampPageSize r = max 1 (min 1000 r))
    ∧ clampPageSize 5000 = 1000 := by
  constructor
  · intro r
    refine ⟨le_max_left _ _, ?_, rfl⟩
    exact max_le (by norm_num) (min_le_left _ _)
  · decide

/-- C10: page and days values below 1 are clamped to 1, so the effective
page and days are always at least 1 and the offset `(page - 1) * pageSize`
is never negative. -/
theorem clamp_low_params (rp rd rs : Int) :
    (rp < 1 → clampPage rp = 1)
    ∧ (rd < 1 → clampDays rd = 1)
    ∧ 1 ≤ clampPage rp
    ∧ 1 ≤ clampDays rd
    ∧ 0 ≤ offsetOf (clampPage rp) (clampPageSize rs) := by
  refine ⟨fun h => max_eq_left (le_of_lt h), fun h => max_eq_left (le_of_lt h),
    le_max_left _ _, le_max_left _ _, ?_⟩
  have h1 : 1 ≤ clampPage rp := le_max_left _ _
  have h2 : 1 ≤ clampPageSize rs := le_max_left _ _
  have : 0 ≤ clampPage rp - 1 := by omega
  exact mul_nonneg this (by omega)

/-- C10 witness: at requested page 0, days -5 and page size 5000, the clamps
produce page 1, days 1 and a non-negative offset. -/
theorem clamp_low_params_witness :
    clampPage 0 = 1 ∧ clampDays (-5) = 1
    ∧ 1 ≤ clampPage 0 ∧ 1 ≤ clampDays (-5)
    ∧ 0 ≤ offsetOf (clampPage 0) (clampPageSize 5000) := by
  obtain ⟨h1, h2, h3, h4, h5⟩ := clamp_low_params 0 (-5) 5000
  exact ⟨h1 (by decide), h2 (by decide), h3, h4, h5⟩

/-- Connection lifecycle event recorded by an endpoint model: the request
opened its database connection, or closed it. -/
inductive ConnEvent where
  | opened
  | closed
deriving DecidableEq

/-- Outcome of the `parse_dataset` endpoint body, abstracting the HTTP
response: 400 for invalid parameters, the two distinct 404 errors, a 500
for any raised exception, and the success payload (the filtered column
list and the pagination total count). -/
inductive ParseResult where
  | badRequest
  | datasetNotFound
  | noHeadersFound
  | serverError
  | success (columns : List String) (totalCount : Nat)
deriving DecidableEq

/-- State a `parse_dataset` request runs against: whether the query-string
parameters parse (app.py lines 148-160), whether `get_db_connection`
succeeds (line 168), the `opt_owl` rows for the requested dataset (their
`linkid` values, `none` for SQL NULL), the `rule_breaks` count (lines
180-188), and whether the generated parse query executes without a
database error when its column list is non-empty. -/
structure ParseDb where
  paramsOk : Bool
  connectOk : Bool
  optOwlRows : List (Option String)
  breakCount : Nat
  parseQueryOk : Bool

/-- Body of `parse_dataset` inside the `try/finally` block (app.py lines
171-295), given a fixed database snapshot.  The existence check is
`COUNT(*)` over the dataset's `opt_owl` rows (lines 173-177); the headers
query reads the same rows with `LIMIT 1` (lines 192-204), so its emptiness
check re-inspects the list whose non-emptiness the `COUNT` already
established; a NULL `linkid` makes the Python iteration over `headers`
raise (line 211), and an empty generated column list leaves a dangling
comma in the spliced SELECT (line 226), which the database rejects — both
surface as a 500. -/
def parseBody (rows : List (Option String)) (totalCount : Nat) (queryOk : Bool) : ParseResult :=
  match rows with
  | [] => ParseResult.datasetNotFound
  | r :: rest =>
    match List.take 1 (r :: rest) with
    | [] => ParseResult.noHeadersFound
    | hr :: _ =>
      match hr with
      | none => ParseResult.serverError
      | some linkid =>
        let headers := stringToArray linkid
        if columnExpressions headers = [] then ParseResult.serverError
        else if queryOk then
          ParseResult.success (headers.filter (fun h => ¬ pyStrip h = "")) totalCount
        else ParseResult.serverError

/-- Model of the `parse_dataset` endpoint (app.py lines 143-311), paired
with the trace of connection events.  Parameter validation happens before
the connection is opened; once `get_db_connection` returns, the whole body
sits inside `try/finally: conn.close()`, so every body outcome is followed
by a close. -/
def parseDataset (db : ParseDb) : ParseResult × List ConnEvent :=
  if db.paramsOk = false then (ParseResult.badRequest, [])
  else if db.connectOk = false then (ParseResult.serverError, [])
  else (parseBody db.optOwlRows db.breakCount db.parseQueryOk,
    [ConnEvent.opened, ConnEvent.closed])

/-- Body of a `/api/dashboard/health` response: the 404 no-data envelope
carrying its four (empty) collections, the success envelope carrying the
four aggregate results, or the 500 error envelope. -/
inductive HealthBody where
  | noData (globalHealth timeSeries dimensions businessUnits : List String)
  | success (globalHealth timeSeries dimensions businessUnits : List String)
  | failure
deriving DecidableEq

/-- HTTP status and body of a `/api/dashboard/health` response. -/
structure HealthResponse where
  status : Nat
  body : HealthBody
deriving DecidableEq

/-- State a `get_dashboard_health` request runs against: whether the
`days` parameter parses as an integer (app.py line 342), whether
`get_db_connection` succeeds (line 345), the pre-aggregation verification
count (lines 349-359), and the result of each of the four aggregate
queries — `Except.error` when executing that query raises. -/
structure HealthDb where
  daysParam : Option Int
  connectOk : Bool
  verifyCount : Nat
  globalHealth : Except String (List String)
  timeSeries : Except String (List String)
  dimensions : Except String (List String)
  businessUnits : Except String (List String)

/-- Names of the four aggregate queries, in the insertion order of the
`queries` dictionary (app.py lines 427-482). -/
def aggregateQueryNames : List String :=
  ["globalHealth", "timeSeries", "dimensions", "businessUnits"]

/-- Model of the `get_dashboard_health` endpoint (app.py lines 338-536):
the response, the list of aggregate queries that were executed, and the
connection-event trace.  If the verification count is zero the endpoint
returns the 404 no-data envelope before any aggregate query is defined or
submitted (lines 360-368).  Otherwise all four queries are submitted to the
worker pool, and their futures are collected in dictionary order with the
first raised error failing the whole request (lines 484-503).  The
`finally` block closes the connection whenever `conn` was assigned (lines
533-536). -/
def getDashboardHealth (db : HealthDb) : HealthResponse × List String × List ConnEvent :=
  match db.daysParam with
  | none => (⟨500, HealthBody.failure⟩, [], [])
  | some _ =>
    if db.connectOk = false then (⟨500, HealthBody.failure⟩, [], [])
    else if db.verifyCount = 0 then
      (⟨404, HealthBody.noData [] [] [] []⟩, [], [ConnEvent.opened, ConnEvent.closed])
    else
      let response : HealthResponse :=
        match db.globalHealth with
        | Except.error _ => ⟨500, HealthBody.failure⟩
        | Except.ok g =>
          match db.timeSeries with
          | Except.error _ => ⟨500, HealthBody.failure⟩
          | Except.ok t =>
            match db.dimensions with
            | Except.error _ => ⟨500, HealthBody.failure⟩
            | Except.ok d =>
              match db.businessUnits with
              | Except.error _ => ⟨500, HealthBody.failure⟩
              | Except.ok b => ⟨200, HealthBody.success g t d b⟩
      (response, aggregateQueryNames, [ConnEvent.opened, ConnEvent.closed])

/-- Outcome of the `get_datasets` endpoint: the row list on success, or the
500 error envelope. -/
inductive DatasetsResult where
  | ok (rows : List String)
  | serverError
deriving DecidableEq

/-- State a `get_datasets` request runs against: whether the `days`
parameter parses (app.py line 99), whether `get_db_connection` succeeds
(line 104), and the result of the list query (lines 106-127). -/
structure DatasetsDb where
  daysParam : Option Int
  connectOk : Bool
  listQuery : Except String (List String)

/-- Model of the `get_datasets` endpoint (app.py lines 94-141) with its
connection-event trace.  The endpoint has no `finally` block: `conn.close()`
(line 131) sits on the success path only, so when the list query raises,
the `except` handler returns the 500 response with the connection still
open. -/
def getDatasets (db : DatasetsDb) : DatasetsResult × List ConnEvent :=
  match db.daysParam with
  | none => (DatasetsResult.serverError, [])
  | some _ =>
    if db.connectOk = false then (DatasetsResult.serverError, [])
    else
      match db.listQuery with
      | Except.error _ => (DatasetsResult.serverError, [ConnEvent.opened])
      | Except.ok rows => (DatasetsResult.ok rows, [ConnEvent.opened, ConnEvent.closed])

/-- C6: when the pre-aggregation verification count is zero, the health
endpoint returns HTTP 404 with all four aggregate collections empty,
executes none of the four aggregate queries, and still opens and closes its
connection exactly once. -/
theorem health_noData_404 (db : HealthDb) (n : Int)
    (hdays : db.daysParam = some n) (hconn : db.connectOk = true)
    (hcount : db.verifyCount = 0) :
    getDashboardHealth db =
      (⟨404, HealthBody.noData [] [] [] []⟩, [], [ConnEvent.opened, ConnEvent.closed]) := by
  obtain ⟨dp, co, vc, gh, ts, dm, bu⟩ := db
  simp only at hdays hconn hcount
  subst hdays hconn hcount
  simp [getDashboardHealth]

/-- C6 witness: a concrete request state with a parsed days parameter, a
working connection and verification count zero produces the 404 envelope
with empty collections and an empty executed-query list. -/
theorem health_noData_404_witness :
    getDashboardHealth
        (HealthDb.mk (some 2) true 0 (Except.ok []) (Except.ok []) (Except.ok []) (Except.ok [])) =
      (⟨404, HealthBody.noData [] [] [] []⟩, [], [ConnEvent.opened, ConnEvent.closed]) :=
  health_noData_404
    (HealthDb.mk (some 2) true 0 (Except.ok []) (Except.ok []) (Except.ok []) (Except.ok []))
    2 rfl rfl rfl

/-- C7: if the four aggregate queries run and at least one of them raises,
the health request fails whole with a 500 error body; and every successful
response body carries exactly the four aggregate results, one from each
query — never a partial subset. -/
theorem health_all_or_nothing :
    (∀ (db : HealthDb) (n : Int), db.daysParam = some n → db.connectOk = true →
      ¬ db.verifyCount = 0 →
      (db.globalHealth.isOk = false ∨ db.timeSeries.isOk = false
        ∨ db.dimensions.isOk = false ∨ db.businessUnits.isOk = false) →
      (getDashboardHealth db).1 = ⟨500, HealthBody.failure⟩)
    ∧ (∀ (db : HealthDb) (g t d b : List String),
        (getDashboardHealth db).1.body = HealthBody.success g t d b →
        (getDashboardHealth db).1.status = 200
        ∧ db.globalHealth = Except.ok g ∧ db.timeSeries = Except.ok t
        ∧ db.dimensions = Except.ok d ∧ db.businessUnits = Except.ok b) := by
  constructor
  · intro db n hdays hconn hcount herr
    obtain ⟨dp, co, vc, gh, ts, dm, bu⟩ := db
    simp only at hdays hconn hcount herr
    subst hdays hconn
    simp only [getDashboardHealth, Bool.true_eq_false, if_false, hcount, if_neg hcount]
    cases gh <;> cases ts <;> cases dm <;> cases bu <;> simp_all [Except.isOk, Except.toBool]
  · intro db g t d b hbody
    obtain ⟨dp, co, vc, gh, ts, dm, bu⟩ := db
    cases dp with
    | none => simp [getDashboardHealth] at hbody
    | some n =>
      cases co with
      | false => simp [getDashboardHealth] at hbody
      | true =>
        by_cases hvc : vc = 0
        · simp [getDashboardHealth, hvc] at hbody
        · simp only [getDashboardHealth, Bool.true_eq_false, if_false, if_neg hvc] at hbody ⊢
          cases gh <;> cases ts <;> cases dm <;> cases bu <;> simp_all

/-- C7 witness: with a failing globalHealth query and the other three
succeeding, the concrete request state yields the 500 failure response. -/
theorem health_all_or_nothing_witness :
    (getDashboardHealth
        (HealthDb.mk (some 2) true 5 (Except.error "query failed")
          (Except.ok []) (Except.ok []) (Except.ok []))).1 =
      ⟨500, HealthBody.failure⟩ :=
  health_all_or_nothing.1
    (HealthDb.mk (some 2) true 5 (Except.error "query failed")
      (Except.ok []) (Except.ok []) (Except.ok []))
    2 rfl rfl (by decide) (Or.inl rfl)

/-- C8 counterexample: for a dataset whose single header row has
`linkid = "~|"`, the header row exists and the token list is empty after
splitting and filtering blanks, yet the endpoint does not produce the
"no headers" 404 — the malformed generated projection makes the request
fail with a 500 server error instead. -/
theorem parse_noHeaders_unreachable_cex :
    (parseDataset (ParseDb.mk true true [some "~|"] 0 true)).1 = ParseResult.serverError
    ∧ resolveColumns "~|" = []
    ∧ ¬ (parseDataset (ParseDb.mk true true [some "~|"] 0 true)).1
        = ParseResult.noHeadersFound := by
  refine ⟨by decide, by decide, by decide⟩

/-- C8 amended: the "dataset not found" error fires exactly when no
`opt_owl` row exists for the dataset; the "no headers" error is unreachable
because the header query reads the same rows whose non-emptiness the
existence check just established; and a header row whose token list is
blank after filtering leads to a 500 server error from the malformed
generated query, not to a 404. -/
theorem parse_error_modes (db : ParseDb)
    (hparams : db.paramsOk = true) (hconn : db.connectOk = true) :
    ((parseDataset db).1 = ParseResult.datasetNotFound ↔ db.optOwlRows = [])
    ∧ ¬ (parseDataset db).1 = ParseResult.noHeadersFound
    ∧ (∀ (linkid : String) (rest : List (Option String)),
        db.optOwlRows = some linkid :: rest →
        columnExpressions (stringToArray linkid) = [] →
        (parseDataset db).1 = ParseResult.serverError) := by
  obtain ⟨po, co, rows, cnt, qok⟩ := db
  simp only at hparams hconn
  subst hparams hconn
  simp only [parseDataset, Bool.true_eq_false, if_false]
  cases rows with
  | nil => simp [parseBody]
  | cons r rest =>
    refine ⟨?_, ?_, ?_⟩
    · simp only [parseBody, List.take]
      cases r with
      | none => simp
      | some linkid =>
        by_cases he : columnExpressions (stringToArray linkid) = []
        · simp [he]
        · cases qok <;> simp [he]
    · simp only [parseBody, List.take]
      cases r with
      | none => simp
      | some linkid =>
        by_cases he : columnExpressions (stringToArray linkid) = []
        · simp [he]
        · cases qok <;> simp [he]
    · intro linkid rest2 hrows hempty
      have hr : r = some linkid := by
        injection hrows with h1 h2
      subst hr
      simp [parseBody, List.take, hempty]

/-- C8 amended witness: at the empty `opt_owl` row list the endpoint
reports "dataset not found", never "no headers", and the vacuous
blank-header premise holds. -/
theorem parse_error_modes_witness :
    ((parseDataset (ParseDb.mk true true [] 0 true)).1 = ParseResult.datasetNotFound
      ↔ (ParseDb.mk true true [] 0 true).optOwlRows = [])
    ∧ ¬ (parseDataset (ParseDb.mk true true [] 0 true)).1 = ParseResult.noHeadersFound
    ∧ (∀ (linkid : String) (rest : List (Option String)),
        (ParseDb.mk true true [] 0 true).optOwlRows = some linkid :: rest →
        columnExpressions (stringToArray linkid) = [] →
        (parseDataset (ParseDb.mk true true [] 0 true)).1 = ParseResult.serverError) :=
  parse_error_modes (ParseDb.mk true true [] 0 true) rfl rfl

/-- C9 counterexample: when the list query of `/api/datasets` raises after
the connection was opened, the endpoint returns its 500 response with the
connection opened once and never closed — the claimed guaranteed cleanup
does not hold for this endpoint. -/
theorem getDatasets_leak_cex :
    (getDatasets (DatasetsDb.mk (some 1) true (Except.error "query failed"))).2.count
        ConnEvent.opened = 1
    ∧ (getDatasets (DatasetsDb.mk (some 1) true (Except.error "query failed"))).2.count
        ConnEvent.closed = 0
    ∧ (getDatasets (DatasetsDb.mk (some 1) true (Except.error "query failed"))).1
        = DatasetsResult.serverError := by
  refine ⟨by decide, by decide, by decide⟩

/-- C9 amended: the parse and health endpoints open at most one connection
per request and close exactly as many connections as they open on every
path (their bodies sit in `try/finally`); the `/api/datasets` endpoint
closes its connection only on the success path, where its trace is exactly
one open followed by one close. -/
theorem connection_cleanup_per_endpoint :
    (∀ db : ParseDb,
        (parseDataset db).2.count ConnEvent.closed = (parseDataset db).2.count ConnEvent.opened
        ∧ (parseDataset db).2.count ConnEvent.opened ≤ 1)
    ∧ (∀ db : HealthDb,
        (getDashboardHealth db).2.2.count ConnEvent.closed
          = (getDashboardHealth db).2.2.count ConnEvent.opened
        ∧ (getDashboardHealth db).2.2.count ConnEvent.opened ≤ 1)
    ∧ (∀ (db : DatasetsDb) (rows : List String),
        (getDatasets db).1 = DatasetsResult.ok rows →
        (getDatasets db).2 = [ConnEvent.opened, ConnEvent.closed]) := by
  refine ⟨?_, ?_, ?_⟩
  · intro db
    obtain ⟨po, co, rows, cnt, qok⟩ := db
    cases po <;> cases co <;> simp [parseDataset]
  · intro db
    obtain ⟨dp, co, vc, gh, ts, dm, bu⟩ := db
    cases dp with
    | none => simp [getDashboardHealth]
    | some n =>
      cases co with
      | false => simp [getDashboardHealth]
      | true =>
        by_cases hvc : vc = 0 <;> simp [getDashboardHealth, hvc]
  · intro db rows h
    obtain ⟨dp, co, lq⟩ := db
    cases dp with
    | none => simp [getDatasets] at h
    | some n =>
      cases co with
      | false => simp [getDatasets] at h
      | true =>
        cases lq with
        | error e => simp [getDatasets] at h
        | ok r => simp [getDatasets]

/-- C9 amended witness: a concrete successful `/api/datasets` request has
the balanced one-open one-close trace. -/
theorem connection_cleanup_per_endpoint_witness :
    (getDatasets (DatasetsDb.mk (some 1) true (Except.ok ["row"]))).2
      = [ConnEvent.opened, ConnEvent.closed] :=
  connection_cleanup_per_endpoint.2.2
    (DatasetsDb.mk (some 1) true (Except.ok ["row"])) ["row"] rfl

end DQBreakRecords
